import Mathlib

/-!
Shallow embedding of the status-normalization and dispute-transition-validation
core of the repository (crates/router/src/core/utils.rs and
crates/router/src/connector/payme/transformers.rs), with theorems settling the
frozen claims about it.

Rust enums become Lean inductives, Rust functions become Lean functions,
`Result<T, E>` becomes `Except E T`, `Option<T>` becomes `Option T`.
The process-wide dispute-validation-failure metric is modelled by explicit
state passing (a `Nat` counter threaded through the validator).
-/

namespace Spec2Proof

/-- Rust `api_models::enums::DisputeStage` (referenced by core/utils.rs). -/
inductive DisputeStage
  | PreDispute
  | Dispute
  | PreArbitration
deriving DecidableEq, Fintype

/-- Rust `api_models::enums::DisputeStatus` (referenced by core/utils.rs). -/
inductive DisputeStatus
  | DisputeOpened
  | DisputeExpired
  | DisputeAccepted
  | DisputeCancelled
  | DisputeChallenged
  | DisputeWon
  | DisputeLost
deriving DecidableEq, Fintype

/-- Rust `errors::WebhooksFlowError` — only the variant produced by the dispute
validator appears in the sources under verification. -/
inductive WebhooksFlowError
  | DisputeWebhookValidationFailed
deriving DecidableEq

/-- core/utils.rs `validate_dispute_stage`: Dispute Stage can move linearly
from PreDispute -> Dispute -> PreArbitration. -/
def validate_dispute_stage (prev_dispute_stage : DisputeStage)
    (dispute_stage : DisputeStage) : Bool :=
  match prev_dispute_stage with
  | .PreDispute => true
  | .Dispute =>
    match dispute_stage with
    | .PreDispute => false
    | _ => true
  | .PreArbitration =>
    match dispute_stage with
    | .PreArbitration => true
    | _ => false

/-- core/utils.rs `validate_dispute_status`: Dispute status can go from
Opened -> (Expired | Accepted | Cancelled | Challenged -> (Won | Lost)). -/
def validate_dispute_status (prev_dispute_status : DisputeStatus)
    (dispute_status : DisputeStatus) : Bool :=
  match prev_dispute_status with
  | .DisputeOpened => true
  | .DisputeExpired =>
    match dispute_status with
    | .DisputeExpired => true
    | _ => false
  | .DisputeAccepted =>
    match dispute_status with
    | .DisputeAccepted => true
    | _ => false
  | .DisputeCancelled =>
    match dispute_status with
    | .DisputeCancelled => true
    | _ => false
  | .DisputeChallenged =>
    match dispute_status with
    | .DisputeChallenged => true
    | .DisputeWon => true
    | .DisputeLost => true
    | _ => false
  | .DisputeWon =>
    match dispute_status with
    | .DisputeWon => true
    | _ => false
  | .DisputeLost =>
    match dispute_status with
    | .DisputeLost => true
    | _ => false

/-- core/utils.rs `validate_dispute_stage_and_dispute_status`.  The stage check
always runs; the status check runs only when the proposed stage equals the
previous stage.  On failure the process-wide
`INCOMING_DISPUTE_WEBHOOK_VALIDATION_FAILURE_METRIC` is incremented and
`WebhooksFlowError::DisputeWebhookValidationFailed` is returned; the metric is
modelled by explicit state passing of a `Nat` counter. -/
def validate_dispute_stage_and_dispute_status (prev_dispute_stage : DisputeStage)
    (prev_dispute_status : DisputeStatus) (dispute_stage : DisputeStage)
    (dispute_status : DisputeStatus) (failure_metric : Nat) :
    Except WebhooksFlowError Unit × Nat :=
  let dispute_stage_validation := validate_dispute_stage prev_dispute_stage dispute_stage
  let dispute_status_validation :=
    if dispute_stage = prev_dispute_stage then
      validate_dispute_status prev_dispute_status dispute_status
    else
      true
  if !(dispute_stage_validation && dispute_status_validation) then
    (Except.error WebhooksFlowError.DisputeWebhookValidationFailed, failure_metric + 1)
  else
    (Except.ok (), failure_metric)

/-- Follows the wording of the spec (§4.3, stage axis), for comparison with
`validate_dispute_stage`: PreDispute accepts anything; Dispute accepts
everything except PreDispute; PreArbitration accepts only PreArbitration. -/
def stage_automaton_spec (prev : DisputeStage) (next : DisputeStage) : Bool :=
  match prev with
  | .PreDispute => true
  | .Dispute => decide (next ≠ DisputeStage.PreDispute)
  | .PreArbitration => decide (next = DisputeStage.PreArbitration)

/-- Follows the wording of the spec (§4.3, status axis), for comparison with
`validate_dispute_status`: Opened accepts anything; Challenged accepts exactly
Challenged, Won, Lost; Expired, Accepted, Cancelled, Won, Lost are terminal
self-loops. -/
def status_automaton_spec (prev : DisputeStatus) (next : DisputeStatus) : Bool :=
  match prev with
  | .DisputeOpened => true
  | .DisputeChallenged =>
    decide (next = DisputeStatus.DisputeChallenged ∨ next = DisputeStatus.DisputeWon ∨
      next = DisputeStatus.DisputeLost)
  | _ => decide (next = prev)

/-! ## payme/transformers.rs -/

/-- Rust `SaleStatus` (payme/transformers.rs): the gateway-native status vocabulary. -/
inductive SaleStatus
  | Initial
  | Completed
  | Refunded
  | PartialRefund
  | Authorized
  | Voided
  | PartialVoid
  | Failed
  | Chargeback
deriving DecidableEq, Fintype

/-- Rust `enums::AttemptStatus` (storage enums, referenced by the transformer).
Only the variants in the image of the payme mapping are modelled. -/
inductive AttemptStatus
  | Authorizing
  | Charged
  | AutoRefunded
  | Authorized
  | Voided
  | Failure
deriving DecidableEq, Fintype

/-- Rust `enums::RefundStatus` (storage enums): the variants produced by the payme
refund mapping. -/
inductive RefundStatus
  | Success
  | Failure
deriving DecidableEq, Fintype

/-- Rust `errors::ConnectorError` — the variants raised in payme/transformers.rs. -/
inductive ConnectorError
  | ResponseHandlingFailed
  | NotImplemented (message : String)
  | FailedToObtainAuthType
  | MissingConnectorRefundID
  | MissingConnectorRelatedTransactionID (id : String)
deriving DecidableEq

/-- Rust `impl From<SaleStatus> for enums::AttemptStatus` (payme/transformers.rs
lines 378-390), translated arm by arm. -/
def AttemptStatus.from_sale_status (item : SaleStatus) : AttemptStatus :=
  match item with
  | .Initial => .Authorizing
  | .Completed => .Charged
  | .Refunded | .PartialRefund => .AutoRefunded
  | .Authorized => .Authorized
  | .Voided | .PartialVoid => .Voided
  | .Failed => .Failure
  | .Chargeback => .AutoRefunded

/-- Rust `impl TryFrom<SaleStatus> for enums::RefundStatus` (payme/transformers.rs
lines 498-512), translated arm by arm. -/
def RefundStatus.try_from_sale_status (sale_status : SaleStatus) :
    Except ConnectorError RefundStatus :=
  match sale_status with
  | .Refunded | .PartialRefund => .ok .Success
  | .Failed => .ok .Failure
  | .Initial | .Completed | .Authorized | .Voided | .PartialVoid | .Chargeback =>
    .error ConnectorError.ResponseHandlingFailed

/-- Rust `NotifyType` (payme/transformers.rs). -/
inductive NotifyType
  | SaleComplete
  | SaleAuthorized
  | Refund
  | SaleFailure
  | SaleChargeback
  | SaleChargebackRefund
deriving DecidableEq, Fintype

/-- Rust `SaleQuery`: one item of the payments list-query reply.  `Secret<String>`
values are modelled as plain `String`. -/
structure SaleQuery where
  sale_status : SaleStatus
  sale_payme_id : String
deriving DecidableEq

/-- Rust `SaleQueryResponse`: the payments list-query reply wrapping a collection. -/
structure SaleQueryResponse where
  items : List SaleQuery
deriving DecidableEq

/-- Rust `PaymePaySaleResponse`: the direct / webhook-shaped payments reply. -/
structure PaymePaySaleResponse where
  sale_status : SaleStatus
  payme_sale_id : String
  payme_transaction_id : String
  buyer_key : Option String
deriving DecidableEq

/-- Rust `TransactionQuery`: one item of the refunds list-query reply. -/
structure TransactionQuery where
  sale_status : SaleStatus
  payme_transaction_id : String
deriving DecidableEq

/-- Rust `PaymeQueryTransactionResponse`: the refunds list-query reply. -/
structure PaymeQueryTransactionResponse where
  items : List TransactionQuery
deriving DecidableEq

/-- Rust `WebhookEventDataResource`: the webhook push payload. -/
structure WebhookEventDataResource where
  sale_status : SaleStatus
  payme_signature : String
  buyer_key : Option String
  notify_type : NotifyType
  payme_sale_id : String
  payme_transaction_id : String
deriving DecidableEq

/-- Rust `types::ResponseId` — only the `ConnectorTransactionId` variant is used by
the payme transformer. -/
inductive ResponseId
  | ConnectorTransactionId (id : String)
deriving DecidableEq

/-- Rust `types::MandateReference`. -/
structure MandateReference where
  connector_mandate_id : Option String
  payment_method_id : Option String
deriving DecidableEq

/-- Rust `PaymeMetadata` (payme/transformers.rs): the opaque connector metadata
attached to a payments response.  The Rust code serializes it with
`serde_json::to_value`, which cannot fail on a struct of one string; the
serialized value is modelled as the structure itself. -/
structure PaymeMetadata where
  payme_transaction_id : String
deriving DecidableEq

/-- Rust `types::PaymentsResponseData::TransactionResponse` — the only variant of
`PaymentsResponseData` used by the payme transformer.  `redirection_data` is
modelled as `Option Unit` since payme never produces one. -/
structure PaymentsResponseData where
  resource_id : ResponseId
  redirection_data : Option Unit
  mandate_reference : Option MandateReference
  connector_metadata : Option PaymeMetadata
  network_txn_id : Option String
  connector_response_reference_id : Option String
deriving DecidableEq

/-- Rust `types::RefundsResponseData`. -/
structure RefundsResponseData where
  connector_refund_id : String
  refund_status : RefundStatus
deriving DecidableEq

/-- Rust `types::ErrorResponse` — an opaque error payload carried in the `response`
slot of a router record; its contents are irrelevant to the claims. -/
structure ErrorResponse where
  code : String
  message : String
deriving DecidableEq

/-- Rust `types::RouterData<F, Req, Res>` — the canonical router record.  The Rust
struct has many flow-bookkeeping fields; the conversions under verification
override only `status` and `response` and copy every remaining field unchanged
via `..item.data`, so all remaining fields are modelled together as an
abstract `rest : Rest`. -/
structure RouterData (Res : Type) (Rest : Type) where
  status : AttemptStatus
  response : Except ErrorResponse Res
  rest : Rest

/-- Rust `types::ResponseRouterData<F, R, Req, Res>`: a freshly parsed connector
response paired with the previous router record. -/
structure ResponseRouterData (R : Type) (Res : Type) (Rest : Type) where
  response : R
  data : RouterData Res Rest
  http_code : Nat

/-- Rust `impl TryFrom<ResponseRouterData<F, PaymePaySaleResponse, T,
PaymentsResponseData>> for RouterData` (payme/transformers.rs lines 110-140):
the webhook-shaped payments reply merged into the router record. -/
def RouterData.try_from_pay_sale_response {Rest : Type}
    (item : ResponseRouterData PaymePaySaleResponse PaymentsResponseData Rest) :
    Except ConnectorError (RouterData PaymentsResponseData Rest) :=
  Except.ok
    { status := AttemptStatus.from_sale_status item.response.sale_status
      response := Except.ok
        { resource_id := ResponseId.ConnectorTransactionId item.response.payme_sale_id
          redirection_data := none
          mandate_reference := item.response.buyer_key.map fun buyer_key =>
            { connector_mandate_id := some buyer_key
              payment_method_id := none }
          connector_metadata :=
            some { payme_transaction_id := item.response.payme_transaction_id }
          network_txn_id := none
          connector_response_reference_id := none }
      rest := item.data.rest }

/-- Rust `impl TryFrom<ResponseRouterData<F, SaleQueryResponse, T,
PaymentsResponseData>> for RouterData` (payme/transformers.rs lines 142-172):
the synchronous payments list-query reply merged into the router record.
Takes the first item of the collection; an empty collection is
`ResponseHandlingFailed`.  The mandate reference is set to `none` here: per
the source comment it is updated with webhooks only. -/
def RouterData.try_from_sale_query_response {Rest : Type}
    (item : ResponseRouterData SaleQueryResponse PaymentsResponseData Rest) :
    Except ConnectorError (RouterData PaymentsResponseData Rest) :=
  match item.response.items.head? with
  | none => Except.error ConnectorError.ResponseHandlingFailed
  | some transaction_response =>
    Except.ok
      { status := AttemptStatus.from_sale_status transaction_response.sale_status
        response := Except.ok
          { resource_id := ResponseId.ConnectorTransactionId transaction_response.sale_payme_id
            redirection_data := none
            mandate_reference := none
            connector_metadata := none
            network_txn_id := none
            connector_response_reference_id := none }
        rest := item.data.rest }

/-- Rust `impl TryFrom<ResponseRouterData<F, PaymeQueryTransactionResponse, T,
RefundsResponseData>> for RouterData` (payme/transformers.rs lines 548-577):
the refunds list-query reply merged into the router record.  Takes the first
item; an empty collection is `ResponseHandlingFailed`; the status of the first item is mapped through the refund-status mapping, which may itself fail. -/
def RouterData.try_from_query_transaction_response {Rest : Type}
    (item : ResponseRouterData PaymeQueryTransactionResponse RefundsResponseData Rest) :
    Except ConnectorError (RouterData RefundsResponseData Rest) :=
  match item.response.items.head? with
  | none => Except.error ConnectorError.ResponseHandlingFailed
  | some pay_sale_response =>
    match RefundStatus.try_from_sale_status pay_sale_response.sale_status with
    | .error e => Except.error e
    | .ok refund_status =>
      Except.ok
        { status := item.data.status
          response := Except.ok
            { refund_status := refund_status
              connector_refund_id := pay_sale_response.payme_transaction_id }
          rest := item.data.rest }

/-- Rust `impl From<WebhookEventDataResource> for PaymePaySaleResponse`
(payme/transformers.rs lines 619-628): projects a webhook push into the
synchronous PSync reply shape. -/
def PaymePaySaleResponse.from_webhook (value : WebhookEventDataResource) :
    PaymePaySaleResponse :=
  { sale_status := value.sale_status
    payme_sale_id := value.payme_sale_id
    payme_transaction_id := value.payme_transaction_id
    buyer_key := value.buyer_key }

/-- Rust `impl From<WebhookEventDataResource> for PaymeQueryTransactionResponse`
(payme/transformers.rs lines 631-639): projects a webhook push into the
synchronous RSync reply shape, as a one-element list. -/
def PaymeQueryTransactionResponse.from_webhook (value : WebhookEventDataResource) :
    PaymeQueryTransactionResponse :=
  { items := [{ sale_status := value.sale_status
                payme_transaction_id := value.payme_transaction_id }] }

/-- Modelled from the spec (§3 invariant 2, §4.4): the persistence-layer merge
of an optional mandate-reference update into the previously stored reference
is not under src/; per the spec it is "set if present, else retain previous".
Used to interpret a `none` update as retention. -/
def apply_mandate_reference_update (previous update : Option MandateReference) :
    Option MandateReference :=
  match update with
  | some m => some m
  | none => previous

/-! ## core/utils.rs reference-id service -/

/-- Modelled from the spec and the in-repo tests: `consts::MAX_ID_LENGTH`
(crate `consts` is not under src/).  The test `validate_id_length_constraint`
rejects a 65-character id (its comment reads "length = 65") and
`validate_id_proper_response` accepts a 41-character id, so the configured
maximum is 64. -/
def MAX_ID_LENGTH : Nat := 64

/-- Modelled from the spec: `consts::ID_LENGTH` (crate `consts` is not under
src/), the fixed length of the random suffix of a generated id. -/
def ID_LENGTH : Nat := 20

/-- Rust `errors::ApiErrorResponse` — only the variant produced by id validation
appears in the sources under verification. -/
inductive ApiErrorResponse
  | InvalidDataFormat (field_name : String) (expected_format : String)
deriving DecidableEq

/-- core/utils.rs `invalid_id_format_error`: the `InvalidDataFormat` error
carrying the field name and its length constraint. -/
def invalid_id_format_error (key : String) : ApiErrorResponse :=
  ApiErrorResponse.InvalidDataFormat key
    ("length should be less than " ++ toString MAX_ID_LENGTH ++ " characters")

/-- core/utils.rs `validate_id` (lines 328-334): rejects an id longer than
`MAX_ID_LENGTH`, returns it unchanged otherwise. -/
def validate_id (id : String) (key : String) : Except ApiErrorResponse String :=
  if id.length > MAX_ID_LENGTH then
    Except.error (invalid_id_format_error key)
  else
    Except.ok id

/-- Modelled from the spec: `utils::generate_id` (crate `common_utils` is not
under src/).  Per spec §4.5 it synthesizes the prefix plus a random suffix of
the requested length, and per the in-repo test `test_generate_id`
(`generate_id(ID_LENGTH, "ref").len() == ID_LENGTH + 4`) a single separator
character joins the prefix (3 chars) and the suffix: the result is
`pfx ++ "_" ++ suffix`.  Randomness is modelled by passing the suffix as an
explicit argument. -/
def generate_id (_length : Nat) (pfx : String) (suffix : String) : String :=
  pfx ++ "_" ++ suffix

/-- core/utils.rs `get_or_generate_id` (lines 297-306): validates a supplied
id, or generates `generate_id ID_LENGTH pfx` when none is supplied.  The
random suffix consumed by generation is passed explicitly. -/
def get_or_generate_id (key : String) (provided_id : Option String) (pfx : String)
    (suffix : String) : Except ApiErrorResponse String :=
  match provided_id with
  | some id => validate_id id key
  | none => Except.ok (generate_id ID_LENGTH pfx suffix)

/-! ## Theorems settling the claims -/

/-- C2: for every pair of dispute stages, `validate_dispute_stage` returns
true exactly per the forward-only stage automaton: from PreDispute every stage
is accepted; from Dispute every stage except PreDispute is accepted; from
PreArbitration only PreArbitration is accepted. -/
theorem validate_dispute_stage_matches_stage_automaton :
    ∀ prev next : DisputeStage,
      validate_dispute_stage prev next = stage_automaton_spec prev next := by
  decide

/-- C3: for every pair of dispute statuses, `validate_dispute_status` returns
true exactly per the status automaton: from Opened every status is accepted;
from Challenged exactly Challenged, Won, or Lost; every other status only
accepts itself (terminal self-loops); in particular the transition from
Challenged to Expired is rejected. -/
theorem validate_dispute_status_matches_status_automaton :
    (∀ prev next : DisputeStatus,
      validate_dispute_status prev next = status_automaton_spec prev next)
    ∧ validate_dispute_status DisputeStatus.DisputeChallenged
        DisputeStatus.DisputeExpired = false := by
  refine ⟨?_, rfl⟩
  decide

/-- C4: the conversion from `SaleStatus` to `AttemptStatus` is total by
construction (a Lean function into `AttemptStatus`, with no `Option` or
error case), and every one of the nine variants maps to exactly the stated
canonical value; in particular Completed maps to Charged and Chargeback maps
to AutoRefunded, the same bucket as Refunded and PartialRefund. -/
theorem attempt_status_mapping_total :
    AttemptStatus.from_sale_status SaleStatus.Initial = AttemptStatus.Authorizing
    ∧ AttemptStatus.from_sale_status SaleStatus.Completed = AttemptStatus.Charged
    ∧ AttemptStatus.from_sale_status SaleStatus.Refunded = AttemptStatus.AutoRefunded
    ∧ AttemptStatus.from_sale_status SaleStatus.PartialRefund = AttemptStatus.AutoRefunded
    ∧ AttemptStatus.from_sale_status SaleStatus.Authorized = AttemptStatus.Authorized
    ∧ AttemptStatus.from_sale_status SaleStatus.Voided = AttemptStatus.Voided
    ∧ AttemptStatus.from_sale_status SaleStatus.PartialVoid = AttemptStatus.Voided
    ∧ AttemptStatus.from_sale_status SaleStatus.Failed = AttemptStatus.Failure
    ∧ AttemptStatus.from_sale_status SaleStatus.Chargeback = AttemptStatus.AutoRefunded := by
  exact ⟨rfl, rfl, rfl, rfl, rfl, rfl, rfl, rfl, rfl⟩

/-- C5: the conversion from `SaleStatus` to `RefundStatus` succeeds with
Success exactly for Refunded and PartialRefund, succeeds with Failure exactly
for Failed, and fails with `ResponseHandlingFailed` for every other variant. -/
theorem refund_status_mapping_partial :
    ∀ s : SaleStatus,
      (RefundStatus.try_from_sale_status s = Except.ok RefundStatus.Success ↔
        (s = SaleStatus.Refunded ∨ s = SaleStatus.PartialRefund))
      ∧ (RefundStatus.try_from_sale_status s = Except.ok RefundStatus.Failure ↔
        s = SaleStatus.Failed)
      ∧ (RefundStatus.try_from_sale_status s =
          Except.error ConnectorError.ResponseHandlingFailed ↔
        (s = SaleStatus.Initial ∨ s = SaleStatus.Completed ∨ s = SaleStatus.Authorized ∨
          s = SaleStatus.Voided ∨ s = SaleStatus.PartialVoid ∨ s = SaleStatus.Chargeback)) := by
  intro s
  cases s <;> refine ⟨⟨?_, ?_⟩, ⟨?_, ?_⟩, ⟨?_, ?_⟩⟩ <;> simp [RefundStatus.try_from_sale_status]

/-- C10: duplicate deliveries are idempotently accepted — for every dispute
stage and status, re-delivering the current state passes
`validate_dispute_stage_and_dispute_status` with no metric increment (both
`validate_dispute_stage` and `validate_dispute_status` are reflexive). -/
theorem dispute_validation_reflexive :
    ∀ (s : DisputeStage) (t : DisputeStatus) (m : Nat),
      validate_dispute_stage_and_dispute_status s t s t m = (Except.ok (), m) := by
  intro s t m
  have hstage : validate_dispute_stage s s = true := by cases s <;> rfl
  have hstatus : validate_dispute_status t t = true := by cases t <;> rfl
  simp [validate_dispute_stage_and_dispute_status, hstage, hstatus]

/-- C1: `validate_dispute_stage_and_dispute_status` returns Ok if and only if
the stage check passes and, when the proposed stage equals the previous stage,
the status check also passes (the status check is skipped whenever the stage
changed); on success the failure metric is untouched, and on failure it
returns the `DisputeWebhookValidationFailed` error with the metric
incremented, modifying nothing else — the validator is pure in the dispute
state, which it only reads. -/
theorem validate_dispute_stage_and_status_ok_iff (ps : DisputeStage)
    (pt : DisputeStatus) (s : DisputeStage) (t : DisputeStatus) (m : Nat) :
    ((validate_dispute_stage_and_dispute_status ps pt s t m).1 = Except.ok () ↔
      (validate_dispute_stage ps s = true ∧
        (s = ps → validate_dispute_status pt t = true)))
    ∧ ((validate_dispute_stage_and_dispute_status ps pt s t m).1 = Except.ok () →
        validate_dispute_stage_and_dispute_status ps pt s t m = (Except.ok (), m))
    ∧ ((validate_dispute_stage_and_dispute_status ps pt s t m).1 ≠ Except.ok () →
        validate_dispute_stage_and_dispute_status ps pt s t m =
          (Except.error WebhooksFlowError.DisputeWebhookValidationFailed, m + 1)) := by
  by_cases h : s = ps
  · subst h
    cases hstage : validate_dispute_stage s s <;>
      cases hstatus : validate_dispute_status pt t <;>
        simp [validate_dispute_stage_and_dispute_status, hstage, hstatus]
  · cases hstage : validate_dispute_stage ps s <;>
      simp [validate_dispute_stage_and_dispute_status, h, hstage]

/-- C1 witness: evaluating the combined validator at a concrete regressive
transition, `(Dispute, Challenged)` to `(PreDispute, Opened)` with the metric
at 7, yields the `DisputeWebhookValidationFailed` error and metric 8. -/
theorem validate_dispute_stage_and_status_ok_iff_witness :
    validate_dispute_stage_and_dispute_status DisputeStage.Dispute
      DisputeStatus.DisputeChallenged DisputeStage.PreDispute
      DisputeStatus.DisputeOpened 7 =
      (Except.error WebhooksFlowError.DisputeWebhookValidationFailed, 8) :=
  (validate_dispute_stage_and_status_ok_iff DisputeStage.Dispute
    DisputeStatus.DisputeChallenged DisputeStage.PreDispute
    DisputeStatus.DisputeOpened 7).2.2
    (fun h => Except.noConfusion h)

/-- C7: projecting a `WebhookEventDataResource` into the synchronous reply
shapes preserves the fields unchanged — the `PaymePaySaleResponse` carries
the same sale_status, payme_sale_id, payme_transaction_id, and buyer_key
(propagated when present), and the `PaymeQueryTransactionResponse` is a
one-element list carrying the same sale_status and payme_transaction_id. -/
theorem webhook_projection_preserves_fields :
    ∀ v : WebhookEventDataResource,
      (PaymePaySaleResponse.from_webhook v).sale_status = v.sale_status
      ∧ (PaymePaySaleResponse.from_webhook v).payme_sale_id = v.payme_sale_id
      ∧ (PaymePaySaleResponse.from_webhook v).payme_transaction_id =
          v.payme_transaction_id
      ∧ (PaymePaySaleResponse.from_webhook v).buyer_key = v.buyer_key
      ∧ (PaymeQueryTransactionResponse.from_webhook v).items =
          [{ sale_status := v.sale_status
             payme_transaction_id := v.payme_transaction_id }] := by
  intro v
  exact ⟨rfl, rfl, rfl, rfl, rfl⟩

/-- C6: both list-style query replies (payments `SaleQueryResponse` and
refunds `PaymeQueryTransactionResponse`) fail with `ResponseHandlingFailed`
on an empty items collection; on a non-empty collection the result equals the
result on the one-element collection holding only the first item — so the
resulting status and resource/refund id come from the first element only,
independent of any remaining elements — and for payments the produced status
and resource id are those of the first item, while for refunds the produced refund
status and refund id are those of the first item. -/
theorem list_query_first_element_policy {Rest : Type}
    (pitem : ResponseRouterData SaleQueryResponse PaymentsResponseData Rest)
    (ritem : ResponseRouterData PaymeQueryTransactionResponse RefundsResponseData Rest)
    (x : SaleQuery) (xs : List SaleQuery)
    (y : TransactionQuery) (ys : List TransactionQuery) :
    (pitem.response.items = [] →
      RouterData.try_from_sale_query_response pitem =
        Except.error ConnectorError.ResponseHandlingFailed)
    ∧ (ritem.response.items = [] →
      RouterData.try_from_query_transaction_response ritem =
        Except.error ConnectorError.ResponseHandlingFailed)
    ∧ (pitem.response.items = x :: xs →
      RouterData.try_from_sale_query_response pitem =
        RouterData.try_from_sale_query_response
          { response := { items := [x] }, data := pitem.data, http_code := pitem.http_code }
      ∧ ∃ r, RouterData.try_from_sale_query_response pitem = Except.ok r
          ∧ r.status = AttemptStatus.from_sale_status x.sale_status
          ∧ ∃ resp, r.response = Except.ok resp
              ∧ resp.resource_id = ResponseId.ConnectorTransactionId x.sale_payme_id)
    ∧ (ritem.response.items = y :: ys →
      RouterData.try_from_query_transaction_response ritem =
        RouterData.try_from_query_transaction_response
          { response := { items := [y] }, data := ritem.data, http_code := ritem.http_code }
      ∧ ∀ r, RouterData.try_from_query_transaction_response ritem = Except.ok r →
          ∃ resp, r.response = Except.ok resp
            ∧ RefundStatus.try_from_sale_status y.sale_status = Except.ok resp.refund_status
            ∧ resp.connector_refund_id = y.payme_transaction_id) := by
  refine ⟨?_, ?_, ?_, ?_⟩
  · intro h
    simp [RouterData.try_from_sale_query_response, h]
  · intro h
    simp [RouterData.try_from_query_transaction_response, h]
  · intro h
    refine ⟨by simp [RouterData.try_from_sale_query_response, h], ?_⟩
    refine ⟨{ status := AttemptStatus.from_sale_status x.sale_status
              response := Except.ok
                { resource_id := ResponseId.ConnectorTransactionId x.sale_payme_id
                  redirection_data := none
                  mandate_reference := none
                  connector_metadata := none
                  network_txn_id := none
                  connector_response_reference_id := none }
              rest := pitem.data.rest }, ?_, rfl, ⟨_, rfl, rfl⟩⟩
    simp [RouterData.try_from_sale_query_response, h]
  · intro h
    refine ⟨by simp [RouterData.try_from_query_transaction_response, h], ?_⟩
    intro r hr
    simp [RouterData.try_from_query_transaction_response, h] at hr
    cases hs : RefundStatus.try_from_sale_status y.sale_status with
    | error e => simp [hs] at hr
    | ok refund_status =>
      simp [hs] at hr
      subst hr
      exact ⟨_, rfl, rfl, rfl⟩

/-- C6 witness: the payments list-query conversion at a concrete empty
collection yields `ResponseHandlingFailed`, and the refunds list-query
conversion at a concrete one-item collection yields the refund
status and refund id of the first item. -/
theorem list_query_first_element_policy_witness :
    RouterData.try_from_sale_query_response
        ({ response := { items := [] }
           data := { status := AttemptStatus.Authorizing
                     response := Except.error { code := "c", message := "m" }
                     rest := () }
           http_code := 200 } :
          ResponseRouterData SaleQueryResponse PaymentsResponseData Unit) =
      Except.error ConnectorError.ResponseHandlingFailed
    ∧ RefundStatus.try_from_sale_status SaleStatus.Refunded =
        Except.ok RefundStatus.Success := by
  constructor
  · exact (list_query_first_element_policy
      ({ response := { items := [] }
         data := { status := AttemptStatus.Authorizing
                   response := Except.error { code := "c", message := "m" }
                   rest := () }
         http_code := 200 } :
        ResponseRouterData SaleQueryResponse PaymentsResponseData Unit)
      { response := { items := [{ sale_status := SaleStatus.Refunded
                                  payme_transaction_id := "txn1" }] }
        data := { status := AttemptStatus.Charged
                  response := Except.error { code := "c", message := "m" }
                  rest := () }
        http_code := 200 }
      { sale_status := SaleStatus.Completed, sale_payme_id := "sale1" } []
      { sale_status := SaleStatus.Refunded, payme_transaction_id := "txn1" } []).1 rfl
  · obtain ⟨resp, hresp, hstat, hid⟩ := ((list_query_first_element_policy
      ({ response := { items := [] }
         data := { status := AttemptStatus.Authorizing
                   response := Except.error { code := "c", message := "m" }
                   rest := () }
         http_code := 200 } :
        ResponseRouterData SaleQueryResponse PaymentsResponseData Unit)
      { response := { items := [{ sale_status := SaleStatus.Refunded
                                  payme_transaction_id := "txn1" }] }
        data := { status := AttemptStatus.Charged
                  response := Except.error { code := "c", message := "m" }
                  rest := () }
        http_code := 200 }
      { sale_status := SaleStatus.Completed, sale_payme_id := "sale1" } []
      { sale_status := SaleStatus.Refunded, payme_transaction_id := "txn1" } []).2.2.2 rfl).2
      { status := AttemptStatus.Charged
        response := Except.ok { connector_refund_id := "txn1"
                                refund_status := RefundStatus.Success }
        rest := () } rfl
    injection hresp with h
    rw [← h] at hstat
    exact hstat

/-- C8: the mandate/token reference is set only on the webhook-push path.
Merging a `PaymePaySaleResponse` produces a mandate reference built from
`buyer_key` whenever it is present (and none when absent), while merging a
synchronous list-query `SaleQueryResponse` produces no mandate reference, so
under the "set if present, else retain previous" persistence merge
(`apply_mandate_reference_update`) the previous reference is retained — never
set, never cleared.  On both paths every previous router-data field not
explicitly overridden (abstracted as `rest`) is carried forward unchanged. -/
theorem mandate_reference_webhook_only {Rest : Type}
    (witem : ResponseRouterData PaymePaySaleResponse PaymentsResponseData Rest)
    (qitem : ResponseRouterData SaleQueryResponse PaymentsResponseData Rest)
    (x : SaleQuery) (xs : List SaleQuery) :
    (∀ r, RouterData.try_from_pay_sale_response witem = Except.ok r →
      r.rest = witem.data.rest
      ∧ r.status = AttemptStatus.from_sale_status witem.response.sale_status
      ∧ ∃ resp, r.response = Except.ok resp
          ∧ resp.resource_id =
              ResponseId.ConnectorTransactionId witem.response.payme_sale_id
          ∧ resp.mandate_reference = witem.response.buyer_key.map fun k =>
              { connector_mandate_id := some k, payment_method_id := none })
    ∧ (qitem.response.items = x :: xs →
      ∀ r, RouterData.try_from_sale_query_response qitem = Except.ok r →
        r.rest = qitem.data.rest
        ∧ ∃ resp, r.response = Except.ok resp
            ∧ resp.mandate_reference = none
            ∧ ∀ previous,
                apply_mandate_reference_update previous resp.mandate_reference =
                  previous) := by
  constructor
  · intro r hr
    simp [RouterData.try_from_pay_sale_response] at hr
    subst hr
    exact ⟨rfl, rfl, _, rfl, rfl, rfl⟩
  · intro h r hr
    simp [RouterData.try_from_sale_query_response, h] at hr
    subst hr
    exact ⟨rfl, _, rfl, rfl, fun previous => rfl⟩

/-- C8 witness: merging a concrete webhook-shaped reply carrying buyer key
"buyer1" produces the charged status mapped from its sale status, and the
concrete list-query path produces no mandate reference, so any previous
reference is retained by the persistence merge. -/
theorem mandate_reference_webhook_only_witness :
    ({ status := AttemptStatus.Charged
       response := Except.ok
         { resource_id := ResponseId.ConnectorTransactionId "sale1"
           redirection_data := none
           mandate_reference := some { connector_mandate_id := some "buyer1"
                                       payment_method_id := none }
           connector_metadata := some { payme_transaction_id := "txn1" }
           network_txn_id := none
           connector_response_reference_id := none }
       rest := () } : RouterData PaymentsResponseData Unit).status =
      AttemptStatus.from_sale_status SaleStatus.Completed
    ∧ apply_mandate_reference_update
        (some { connector_mandate_id := some "old", payment_method_id := none })
        none =
      some { connector_mandate_id := some "old", payment_method_id := none } := by
  constructor
  · exact ((mandate_reference_webhook_only
      ({ response := { sale_status := SaleStatus.Completed
                       payme_sale_id := "sale1"
                       payme_transaction_id := "txn1"
                       buyer_key := some "buyer1" }
         data := { status := AttemptStatus.Authorizing
                   response := Except.error { code := "c", message := "m" }
                   rest := () }
         http_code := 200 } :
        ResponseRouterData PaymePaySaleResponse PaymentsResponseData Unit)
      { response := { items := [{ sale_status := SaleStatus.Completed
                                  sale_payme_id := "sale2" }] }
        data := { status := AttemptStatus.Authorizing
                  response := Except.error { code := "c", message := "m" }
                  rest := () }
        http_code := 200 }
      { sale_status := SaleStatus.Completed, sale_payme_id := "sale2" } []).1
      { status := AttemptStatus.Charged
        response := Except.ok
          { resource_id := ResponseId.ConnectorTransactionId "sale1"
            redirection_data := none
            mandate_reference := some { connector_mandate_id := some "buyer1"
                                        payment_method_id := none }
            connector_metadata := some { payme_transaction_id := "txn1" }
            network_txn_id := none
            connector_response_reference_id := none }
        rest := () } rfl).2.1
  · obtain ⟨-, resp, -, hmr, hret⟩ := (mandate_reference_webhook_only
      ({ response := { sale_status := SaleStatus.Completed
                       payme_sale_id := "sale1"
                       payme_transaction_id := "txn1"
                       buyer_key := some "buyer1" }
         data := { status := AttemptStatus.Authorizing
                   response := Except.error { code := "c", message := "m" }
                   rest := () }
         http_code := 200 } :
        ResponseRouterData PaymePaySaleResponse PaymentsResponseData Unit)
      { response := { items := [{ sale_status := SaleStatus.Completed
                                  sale_payme_id := "sale2" }] }
        data := { status := AttemptStatus.Authorizing
                  response := Except.error { code := "c", message := "m" }
                  rest := () }
        http_code := 200 }
      { sale_status := SaleStatus.Completed, sale_payme_id := "sale2" } []).2 rfl
      { status := AttemptStatus.Charged
        response := Except.ok
          { resource_id := ResponseId.ConnectorTransactionId "sale2"
            redirection_data := none
            mandate_reference := none
            connector_metadata := none
            network_txn_id := none
            connector_response_reference_id := none }
        rest := () } rfl
    have h2 := hret (some { connector_mandate_id := some "old", payment_method_id := none })
    rw [hmr] at h2
    exact h2

/-- C9 counterexample: with no id supplied, prefix "ref" and a random suffix
of `ID_LENGTH` (= 20) characters, `get_or_generate_id` returns an id of 24
characters, not `"ref".length + ID_LENGTH = 23` — refuting the claim that a
generated id has exactly prefix_length + fixed_length characters (the
in-repo test `test_generate_id` likewise expects `ID_LENGTH + 4` for the
3-character prefix "ref"). -/
theorem get_or_generate_id_length_counterexample :
    get_or_generate_id "payment_id" none "ref" "aaaaaaaaaaaaaaaaaaaa" =
      Except.ok "ref_aaaaaaaaaaaaaaaaaaaa"
    ∧ "ref_aaaaaaaaaaaaaaaaaaaa".length = 24
    ∧ "ref".length + ID_LENGTH = 23
    ∧ "ref_aaaaaaaaaaaaaaaaaaaa".length ≠ "ref".length + ID_LENGTH := by
  refine ⟨rfl, by decide, by decide, by decide⟩

/-- C9 (amended): `get_or_generate_id` returns `InvalidDataFormat` carrying
the field name and its length constraint for every supplied id longer than
`MAX_ID_LENGTH`, returns every supplied id of valid length unchanged, and for
an absent id returns — never failing — a generated id of exactly
prefix_length + 1 + fixed_length characters (an underscore separator joins
the prefix and the random suffix). -/
theorem get_or_generate_id_amended (key : String) (pfx : String) (suffix : String)
    (provided_id : Option String) :
    (∀ id, provided_id = some id → MAX_ID_LENGTH < id.length →
      get_or_generate_id key provided_id pfx suffix =
        Except.error (ApiErrorResponse.InvalidDataFormat key
          ("length should be less than " ++ toString MAX_ID_LENGTH ++ " characters")))
    ∧ (∀ id, provided_id = some id → id.length ≤ MAX_ID_LENGTH →
      get_or_generate_id key provided_id pfx suffix = Except.ok id)
    ∧ (provided_id = none → suffix.length = ID_LENGTH →
      get_or_generate_id key provided_id pfx suffix =
        Except.ok (generate_id ID_LENGTH pfx suffix)
      ∧ (generate_id ID_LENGTH pfx suffix).length = pfx.length + 1 + ID_LENGTH) := by
  refine ⟨?_, ?_, ?_⟩
  · intro id hp hlen
    subst hp
    simp [get_or_generate_id, validate_id, invalid_id_format_error, hlen]
  · intro id hp hlen
    subst hp
    simp [get_or_generate_id, validate_id, Nat.not_lt.mpr hlen]
  · intro hp hs
    subst hp
    refine ⟨rfl, ?_⟩
    rw [generate_id, String.length_append, String.length_append, hs]
    rfl

/-- C9 witness: at field "payment_id", prefix "ref" and a concrete
20-character suffix with no id supplied, the generated id has
3 + 1 + 20 characters. -/
theorem get_or_generate_id_amended_witness :
    get_or_generate_id "payment_id" none "ref" "aaaaaaaaaaaaaaaaaaaa" =
      Except.ok (generate_id ID_LENGTH "ref" "aaaaaaaaaaaaaaaaaaaa")
    ∧ (generate_id ID_LENGTH "ref" "aaaaaaaaaaaaaaaaaaaa").length =
        "ref".length + 1 + ID_LENGTH :=
  (get_or_generate_id_amended "payment_id" "ref" "aaaaaaaaaaaaaaaaaaaa" none).2.2
    rfl (by decide)

end Spec2Proof
